import Mathlib

/-!
Shallow embedding of the `bundy` repository's Element data model
(`src/lib/cc/cpp/data.h`) and the DNS service listener registration surface
(`src/lib/asiodns/dns_service.h`).

C++ objects are modelled as Lean values; a mutating C++ method of result type
`R` becomes a Lean function returning `Except CcError R × Element` (the
outcome together with the object after the call).  A thrown exception is
`Except.error`; the object component then holds the unmodified object, since
the inline bodies in `data.h` throw before mutating.  Executions that are
undefined behavior in C++ (unchecked `std::vector` accesses past the end) are
marked with the distinguished `CcError.undefinedBehavior` outcome.
-/

/-- The error conditions of the modelled code: `TypeError` (data.h line 39),
`std::out_of_range` (thrown by `std::vector::at` and `ListElement::set`),
`DecodeError` (data.h line 61), `isc::InvalidParameter` (dns_service.h), and
a marker for executions that are undefined behavior in C++. -/
inductive CcError where
  | typeError (msg : String)
  | outOfRange (msg : String)
  | decodeError (msg : String)
  | invalidParameter (msg : String)
  | undefinedBehavior (msg : String)
deriving DecidableEq, Repr

/-- The type tags of `enum types { integer, real, boolean, string, list, map }`
(data.h line 99). -/
inductive EType where
  | integer
  | real
  | boolean
  | string
  | list
  | map
deriving DecidableEq, Repr

/-- An Element (data.h line 87): a tagged variant.  The `type` field of the
C++ base class is determined by the constructor (each subclass constructor
passes its fixed tag to `Element(int t)`).  The `double` payload of
`DoubleElement` is modelled as a rational number: none of the verified
operations computes with it, they only store, compare and transport it.
A `MapElement`'s `std::map<std::string, ElementPtr>` payload is modelled as an
association list ordered by key (the iteration/storage order of `std::map`),
whose values are `Option Element` because a stored `ElementPtr` can be the
null handle (`MapElement::get` on a missing key inserts a default-constructed
shared_ptr, data.h line 394). -/
inductive Element where
  | int (i : Int)
  | dbl (d : ℚ)
  | bool (b : Bool)
  | str (s : String)
  | list (l : List Element)
  | map (m : List (String × Option Element))

/-- Payload type of a `MapElement`. -/
abbrev MapPayload := List (String × Option Element)

/-- `Element::getType()` (data.h line 104): returns the tag fixed at
construction. -/
def Element.getType : Element → EType
  | .int _ => .integer
  | .dbl _ => .real
  | .bool _ => .boolean
  | .str _ => .string
  | .list _ => .list
  | .map _ => .map

/-- `Element::intValue()` (data.h line 136): virtual, overridden only by
`IntElement` (line 326); every other variant runs the base body, which
throws `TypeError`. -/
def Element.intValue : Element → Except CcError Int
  | .int i => .ok i
  | _ => .error (.typeError "intValue() called on non-integer Element")

/-- `Element::doubleValue()` (data.h line 137), overridden by `DoubleElement`
(line 338). -/
def Element.doubleValue : Element → Except CcError ℚ
  | .dbl d => .ok d
  | _ => .error (.typeError "doubleValue() called on non-double Element")

/-- `Element::boolValue()` (data.h line 138), overridden by `BoolElement`
(line 350). -/
def Element.boolValue : Element → Except CcError Bool
  | .bool b => .ok b
  | _ => .error (.typeError "boolValue() called on non-Bool Element")

/-- `Element::stringValue()` (data.h line 139), overridden by `StringElement`
(line 362). -/
def Element.stringValue : Element → Except CcError String
  | .str s => .ok s
  | _ => .error (.typeError "stringValue() called on non-string Element")

/-- `Element::listValue()` (data.h line 140), overridden by `ListElement`
(line 374). -/
def Element.listValue : Element → Except CcError (List Element)
  | .list l => .ok l
  | _ => .error (.typeError "listValue() called on non-list Element")

/-- `Element::mapValue()` (data.h line 141), overridden by `MapElement`
(line 391). -/
def Element.mapValue : Element → Except CcError MapPayload
  | .map m => .ok m
  | _ => .error (.typeError "mapValue() called on non-map Element")

/-- Whether an `Except` outcome is a normal return (no exception). -/
def isOkB : Except CcError α → Bool
  | .ok _ => true
  | .error _ => false

/-- Whether an `Except` outcome is a thrown `TypeError`. -/
def isTypeErrB : Except CcError α → Bool
  | .error (.typeError _) => true
  | _ => false

/-!
Exception-safe getters (data.h lines 153-158).  A C++ call `e->getValue(t)`
writes through the reference `t` and returns a flag; it is modelled as a
function from the element and the previous value of `t` to the pair
(returned flag, value of `t` after the call).  The base-class bodies return
`false` and do not touch `t`; each subclass overrides the overload of its own
payload type (data.h lines 327, 339, 351, 363, 375, 392).
-/

/-- `virtual bool getValue(int&)` under virtual dispatch. -/
def Element.getValueInt : Element → Int → Bool × Int
  | .int i, _ => (true, i)
  | _, t => (false, t)

/-- `virtual bool getValue(double&)` under virtual dispatch. -/
def Element.getValueDouble : Element → ℚ → Bool × ℚ
  | .dbl d, _ => (true, d)
  | _, t => (false, t)

/-- `virtual bool getValue(bool&)` under virtual dispatch. -/
def Element.getValueBool : Element → Bool → Bool × Bool
  | .bool b, _ => (true, b)
  | _, t => (false, t)

/-- `virtual bool getValue(std::string&)` under virtual dispatch. -/
def Element.getValueString : Element → String → Bool × String
  | .str s, _ => (true, s)
  | _, t => (false, t)

/-- `virtual bool getValue(std::vector<ElementPtr>&)` under virtual
dispatch. -/
def Element.getValueList : Element → List Element → Bool × List Element
  | .list l, _ => (true, l)
  | _, t => (false, t)

/-- `virtual bool getValue(std::map<std::string,ElementPtr>&)` under virtual
dispatch. -/
def Element.getValueMap : Element → MapPayload → Bool × MapPayload
  | .map m, _ => (true, m)
  | _, t => (false, t)

/-!
Exception-safe setters (data.h lines 168-173).  `e->setValue(v)` is modelled
as (returned flag, element after the call).  The base bodies return `false`
without mutating; the scalar and list subclasses override their overload
(data.h lines 328, 340, 352, 364, 376).
-/

/-- `virtual bool setValue(const int)` under virtual dispatch. -/
def Element.setValueInt : Element → Int → Bool × Element
  | .int _, v => (true, .int v)
  | e, _ => (false, e)

/-- `virtual bool setValue(const double)` under virtual dispatch. -/
def Element.setValueDouble : Element → ℚ → Bool × Element
  | .dbl _, v => (true, .dbl v)
  | e, _ => (false, e)

/-- `virtual bool setValue(const bool)` under virtual dispatch. -/
def Element.setValueBool : Element → Bool → Bool × Element
  | .bool _, v => (true, .bool v)
  | e, _ => (false, e)

/-- `virtual bool setValue(const std::string&)` under virtual dispatch. -/
def Element.setValueString : Element → String → Bool × Element
  | .str _, v => (true, .str v)
  | e, _ => (false, e)

/-- `virtual bool setValue(const std::vector<ElementPtr>&)` under virtual
dispatch. -/
def Element.setValueList : Element → List Element → Bool × Element
  | .list _, v => (true, .list v)
  | e, _ => (false, e)

/-- `virtual bool setValue(const std::map<std::string,ElementPtr>&)` under
virtual dispatch through an `ElementPtr` (`boost::shared_ptr<Element>`), the
access path the header prescribes (data.h lines 77-79).

`MapElement::setValue` (data.h line 393) takes a NON-const reference
`std::map<std::string, ElementPtr>&`, while the virtual base function
(data.h line 173) takes `const std::map<std::string, ElementPtr>&`.  The
parameter types differ, so the derived function does not override the
virtual: calling `setValue` with a map argument through an `ElementPtr`
always runs the base body, which returns `false` and mutates nothing — for
map elements too. -/
def Element.setValueMapDispatch : Element → MapPayload → Bool × Element
  | e, _ => (false, e)

/-- `MapElement::setValue(std::map<std::string,ElementPtr>&)` (data.h line
393) invoked directly on a `MapElement` lvalue (not through the virtual
interface): replaces the payload and returns `true`. -/
def mapElementSetValueDirect : MapPayload → MapPayload → Bool × MapPayload
  | _, v => (true, v)

/-!
List operations of `ListElement` (data.h lines 369-384), on the
`std::vector<ElementPtr>` payload.
-/

/-- `ListElement::get(int i)` (data.h line 377): `return l.at(i);`.  The
`int` index is converted to `std::vector::size_type`; a negative `i` becomes
a huge unsigned value, so `at` throws `std::out_of_range` for every index
outside `[0, size)`. -/
def listGet (l : List Element) (i : Int) : Except CcError Element :=
  if h : 0 ≤ i ∧ i.toNat < l.length then .ok (l.get ⟨i.toNat, h.2⟩)
  else .error (.outOfRange "vector::_M_range_check")

/-- `ListElement::set(size_t i, ElementPtr e)` (data.h line 378):
`if (i <= l.size()) { l[i] = e; } else { throw std::out_of_range(...); }`.
The guard uses `<=`, so `i == l.size()` takes the first branch and performs
`l[i]` — an unchecked `std::vector::operator[]` write one past the end,
which is undefined behavior in C++, not a thrown range error. -/
def listSet (l : List Element) (i : Nat) (e : Element) : Except CcError (List Element) :=
  if i < l.length then .ok (l.set i e)
  else if i = l.length then
    .error (.undefinedBehavior "unchecked vector write one past the end")
  else .error (.outOfRange "vector::_M_range_check")

/-- `ListElement::add(ElementPtr e)` (data.h line 379): `l.push_back(e)`. -/
def listAdd (l : List Element) (e : Element) : List Element :=
  l ++ [e]

/-- `ListElement::remove(int i)` (data.h line 380):
`l.erase(l.begin() + i);`, with no bounds check at all.  `std::vector::erase`
requires a valid, dereferenceable iterator; for `i` outside `[0, size)` the
call is undefined behavior in C++ (not a no-op). -/
def listRemove (l : List Element) (i : Int) : Except CcError (List Element) :=
  if 0 ≤ i ∧ i < (l.length : Int) then .ok (l.eraseIdx i.toNat)
  else .error (.undefinedBehavior "vector::erase on an invalid iterator")

/-!
Map operations of `MapElement` (data.h lines 386-397), on the
`std::map<std::string, ElementPtr>` payload, modelled as an association list
kept in ascending key order (the storage order of `std::map`).
-/

/-- `std::map::find`-style lookup on the key-ordered association list. -/
def mlookup (k : String) : MapPayload → Option (Option Element)
  | [] => none
  | (k2, v) :: rest => if k = k2 then some v else mlookup k rest

/-- `std::map` insertion/overwrite at a key, keeping the ascending key
order. -/
def minsert (k : String) (v : Option Element) : MapPayload → MapPayload
  | [] => [(k, v)]
  | (k2, v2) :: rest =>
    if k < k2 then (k, v) :: (k2, v2) :: rest
    else if k = k2 then (k, v) :: rest
    else (k2, v2) :: minsert k v rest

/-- `std::map::erase` at a key. -/
def merase (k : String) : MapPayload → MapPayload
  | [] => []
  | (k2, v2) :: rest => if k = k2 then rest else (k2, v2) :: merase k rest

/-- `MapElement::get(const std::string& s)` (data.h line 394):
`return m[s];`.  `std::map::operator[]` returns the stored mapped value if
the key is present; if it is absent it value-initializes a mapped value (a
null `ElementPtr`), INSERTS it into the map, and returns it.  Modelled as
(returned handle, map payload after the call). -/
def mapGet (m : MapPayload) (k : String) : Option Element × MapPayload :=
  match mlookup k m with
  | some v => (v, m)
  | none => (none, minsert k none m)

/-- `MapElement::set(const std::string& s, ElementPtr p)` (data.h line 395):
`m[s] = p;`. -/
def mapSet (m : MapPayload) (k : String) (p : Option Element) : MapPayload :=
  minsert k p m

/-- `MapElement::contains(const std::string& s)` (data.h line 397):
`return m.find(s) != m.end();` — true exactly when the key is present,
whether or not the stored handle is null. -/
def mapContains (m : MapPayload) (k : String) : Bool :=
  (mlookup k m).isSome

/-!
The virtual interface of the list and map operations.  On a mismatched
variant the base-class body runs and throws `TypeError` (data.h lines
188-223); on the matching variant the subclass body from above runs.  Each
function returns (outcome, element after the call).
-/

/-- `virtual ElementPtr get(const int)` (data.h lines 188, 377) under virtual
dispatch. -/
def Element.eGetIdx : Element → Int → Except CcError Element × Element
  | .list l, i => (listGet l i, .list l)
  | e, _ => (.error (.typeError "get(int) called on a non-list Element"), e)

/-- `virtual void set(const size_t, ElementPtr)` (data.h lines 193, 378)
under virtual dispatch.  On the undefined-behavior branch of
`ListElement::set` the after-state is not defined by C++; the model keeps
the old payload and reports the `undefinedBehavior` outcome. -/
def Element.eSetIdx : Element → Nat → Element → Except CcError Unit × Element
  | .list l, i, x =>
    match listSet l i x with
    | .ok l2 => (.ok (), .list l2)
    | .error err => (.error err, .list l)
  | e, _, _ => (.error (.typeError "set(int, element) called on a non-list Element"), e)

/-- `virtual void add(ElementPtr)` (data.h lines 196, 379) under virtual
dispatch. -/
def Element.eAdd : Element → Element → Except CcError Unit × Element
  | .list l, x => (.ok (), .list (listAdd l x))
  | e, _ => (.error (.typeError "add() called on a non-list Element"), e)

/-- `virtual void remove(const int)` (data.h lines 200, 380) under virtual
dispatch; the undefined-behavior case is modelled as for `eSetIdx`. -/
def Element.eRemoveIdx : Element → Int → Except CcError Unit × Element
  | .list l, i =>
    match listRemove l i with
    | .ok l2 => (.ok (), .list l2)
    | .error err => (.error err, .list l)
  | e, _ => (.error (.typeError "remove(int) called on a non-list Element"), e)

/-- `virtual size_t size()` (data.h lines 202, 383) under virtual
dispatch. -/
def Element.eSize : Element → Except CcError Nat
  | .list l => .ok l.length
  | _ => .error (.typeError "size() called on a non-list Element")

/-- `virtual ElementPtr get(const std::string&)` (data.h lines 213, 394)
under virtual dispatch. -/
def Element.eGetKey : Element → String → Except CcError (Option Element) × Element
  | .map m, k =>
    match mapGet m k with
    | (v, m2) => (.ok v, .map m2)
  | e, _ => (.error (.typeError "get(string) called on a non-map Element"), e)

/-- `virtual void set(const std::string&, ElementPtr)` (data.h lines 216,
395) under virtual dispatch. -/
def Element.eSetKey : Element → String → Option Element → Except CcError Unit × Element
  | .map m, k, p => (.ok (), .map (mapSet m k p))
  | e, _, _ => (.error (.typeError "set(name, element) called on a non-map Element"), e)

/-- `virtual void remove(const std::string&)` (data.h lines 219, 396) under
virtual dispatch. -/
def Element.eRemoveKey : Element → String → Except CcError Unit × Element
  | .map m, k => (.ok (), .map (merase k m))
  | e, _ => (.error (.typeError "remove(string) called on a non-map Element"), e)

/-- `virtual bool contains(const std::string&)` (data.h lines 223, 397)
under virtual dispatch. -/
def Element.eContains : Element → String → Except CcError Bool
  | .map m, k => .ok (mapContains m k)
  | _, _ => .error (.typeError "contains(string) called on a non-map Element")

/-- Splits a string into its `/`-separated segments (`"a/b/c"` becomes
`["a", "b", "c"]`). -/
def splitSegsAux : List Char → List Char → List String
  | [], acc => [String.mk acc.reverse]
  | c :: cs, acc =>
    if c = '/' then String.mk acc.reverse :: splitSegsAux cs []
    else splitSegsAux cs (c :: acc)

/-- The `/`-separated segments of an identifier. -/
def splitSegs (s : String) : List String :=
  splitSegsAux s.data []

/-- Modelled from the spec: the body of `MapElement::find` lives in
`data.cc`, which is not among the source files; only its declaration
(data.h line 411) is.  Per the spec, `find` resolves a slash-separated
identifier segment by segment: each segment is looked up as a key of the
current map; a non-final segment must name a nested map to keep descending;
if any segment is absent, holds a null handle, or (for a non-final segment)
names a non-map element, the result is "not found" (`none`, the null
handle); if the full path exists the handle at the leaf is returned. -/
def findSegs : MapPayload → List String → Option Element
  | _, [] => none
  | m, [k] =>
    match mlookup k m with
    | some v => v
    | none => none
  | m, k :: rest =>
    match mlookup k m with
    | some (some (.map m2)) => findSegs m2 rest
    | _ => none

/-- `virtual ElementPtr find(const std::string&)` under virtual dispatch:
the base body (data.h line 237) throws `TypeError` on every non-map variant;
the `MapElement` branch is `findSegs` over the `/`-separated segments of the
identifier (modelled from the spec, see `findSegs`). -/
def Element.eFind : Element → String → Except CcError (Option Element)
  | .map m, id => .ok (findSegs m (splitSegs id))
  | _, _ => .error (.typeError "find(string) called on a non-map Element")

/-- `virtual bool find(const std::string&, ElementPtr&)` under virtual
dispatch, modelled as (returned flag, out-reference after the call): the
base body (data.h line 242) returns `false` without touching the reference;
the `MapElement` branch (modelled from the spec, body not in the sources)
stores the found handle and returns `true`, or returns `false` leaving the
reference untouched. -/
def Element.eFindTo : Element → String → Option Element → Bool × Option Element
  | .map m, id, t =>
    match findSegs m (splitSegs id) with
    | some e => (true, some e)
    | none => (false, t)
  | _, _, t => (false, t)

mutual

/-- Modelled from the spec: the bodies of the `str()` overrides live in
`data.cc`, which is not among the source files; only the format is
documented (data.h lines 108-113 and the spec): a map renders as
`{ "key": value, ... }` iterating its `std::map` payload — whose order is
the ascending key order, the only order the container retains — a list as
`[ value, ... ]`, scalars in their natural textual form, strings quoted.
The `double` payload, modelled as `ℚ`, renders via `toString`. -/
def strOf : Element → String
  | .int i => toString i
  | .dbl d => toString d
  | .bool b => if b then "true" else "false"
  | .str s => "\"" ++ s ++ "\""
  | .list l => "[ " ++ strL l ++ " ]"
  | .map m => "\x7b " ++ strM m ++ " \x7d"

/-- Comma-separated rendering of list items, in list order. -/
def strL : List Element → String
  | [] => ""
  | [e] => strOf e
  | e :: e2 :: es => strOf e ++ ", " ++ strL (e2 :: es)

/-- Rendering of one map pair.  A stored null handle has no textual form in
the sources (rendering it would dereference a null pointer); the model
prints a placeholder that factory-built trees never contain. -/
def strP : String × Option Element → String
  | (k, some e) => "\"" ++ k ++ "\": " ++ strOf e
  | (k, none) => "\"" ++ k ++ "\": <null>"

/-- Comma-separated rendering of map pairs, in payload (key) order. -/
def strM : MapPayload → String
  | [] => ""
  | [p] => strP p
  | p :: q :: ps => strP p ++ ", " ++ strM (q :: ps)

end

/-!
Wire codec.  The bodies of `Element::toWire` and `Element::fromWire` live in
`data.cc`, which is not among the source files; the codec below is modelled
from the spec: every encoded element begins with a type tag matching the
`types` enumeration values (integer = 0, real = 1, boolean = 2, string = 3,
list = 4, map = 5), followed by the payload.  The model follows the default
`omit_length = 1` call (data.h line 124): the top-level length field is
omitted and the decoder derives the payload length from the available bytes,
failing with a decode error if the tag is unrecognized or the payload does
not have the shape the tag demands.  The wire is a `List Nat` of symbols.
-/

/-- Injective encoding of a signed integer payload into one wire symbol. -/
def encInt : Int → Nat
  | .ofNat n => 2 * n
  | .negSucc n => 2 * n + 1

/-- Inverse of `encInt`. -/
def decInt (n : Nat) : Int :=
  if n % 2 = 0 then .ofNat (n / 2) else .negSucc ((n - 1) / 2)

mutual

/-- Modelled from the spec (see the section comment): the wire encoding of
an element with the top-level length omitted, as `Element::toWire()`
produces with its default argument.  A real's payload is its numerator and
denominator; a string's payload is its character codes; a composite's
children are recursively encoded, each preceded by its own length. -/
def toWire : Element → List Nat
  | .int i => [0, encInt i]
  | .dbl d => [1, encInt d.num, d.den]
  | .bool b => [2, if b then 1 else 0]
  | .str s => 3 :: s.data.map Char.toNat
  | .list l => 4 :: toWireL l
  | .map m => 5 :: toWireM m

/-- Length-prefixed concatenation of the encodings of list children. -/
def toWireL : List Element → List Nat
  | [] => []
  | e :: es => (toWire e).length :: (toWire e ++ toWireL es)

/-- Length-prefixed concatenation of the encodings of map children, each
preceded by its key's character codes and their count.  A stored null
handle (never produced by the factories) encodes as length 0. -/
def toWireM : MapPayload → List Nat
  | [] => []
  | (k, some e) :: ps =>
    (k.data.map Char.toNat).length :: (k.data.map Char.toNat ++
      ((toWire e).length :: (toWire e ++ toWireM ps)))
  | (k, none) :: ps =>
    (k.data.map Char.toNat).length :: (k.data.map Char.toNat ++ (0 :: toWireM ps))

end

/-- Modelled from the spec (see the section comment): `Element::fromWire`
reads the type tag, derives the payload length from the available bytes, and
decodes the payload into the matching variant; a decode error is raised on
an unrecognized tag or a payload whose shape is inconsistent with its tag.
The composite decoders are in `data.cc` and are not needed by any claim;
the model reports composite input as undecoded rather than guessing a
parser. -/
def fromWire (w : List Nat) : Except CcError Element :=
  match w with
  | [] => .error (.decodeError "Wire-format data is invalid")
  | 0 :: p =>
    match p with
    | [a] => .ok (.int (decInt a))
    | _ => .error (.decodeError "Wire-format data is invalid")
  | 1 :: p =>
    match p with
    | [a, d] =>
      if d = 0 then .error (.decodeError "Wire-format data is invalid")
      else .ok (.dbl ((decInt a : ℚ) / (d : ℚ)))
    | _ => .error (.decodeError "Wire-format data is invalid")
  | 2 :: p =>
    match p with
    | [0] => .ok (.bool false)
    | [1] => .ok (.bool true)
    | _ => .error (.decodeError "Wire-format data is invalid")
  | 3 :: p => .ok (.str ⟨p.map Char.ofNat⟩)
  | 4 :: _ => .error (.decodeError "composite decoding not modelled")
  | 5 :: _ => .error (.decodeError "composite decoding not modelled")
  | _ :: _ => .error (.decodeError "Wire-format data is invalid")

/-!
Factories.  `Element::create` (data.h lines 259-267) "simply wrap the given
data directly in an Element object" (doc comment, data.h lines 251-254); one
Lean name per C++ overload.
-/

/-- `Element::create(const int)`. -/
def Element.createInt (i : Int) : Element := .int i

/-- `Element::create(const double)`. -/
def Element.createDouble (d : ℚ) : Element := .dbl d

/-- `Element::create(const bool)`. -/
def Element.createBool (b : Bool) : Element := .bool b

/-- `Element::create(const std::string&)`. -/
def Element.createString (s : String) : Element := .str s

/-- `Element::create(const std::vector<ElementPtr>&)`. -/
def Element.createList (l : List Element) : Element := .list l

/-- `Element::create(const std::map<std::string, ElementPtr>&)`. -/
def Element.createMap (m : MapPayload) : Element := .map m

/-- The map payload obtained by starting from an empty map and inserting the
given key/value pairs in order with `MapElement::set` — the only way the
public interface builds up a map incrementally.  `std::map` stores the
result in ascending key order; the insertion order is not retained anywhere
in the element's state. -/
def mkMapPayload (kvs : List (String × Element)) : MapPayload :=
  kvs.foldl (fun m kv => mapSet m kv.1 (some kv.2)) []

/-!
DNS service listener registration (`src/lib/asiodns/dns_service.h`).  The
bodies live in `dns_service.cc`, which is not among the source files; the
model below is built from the header's declarations and documented contract.
-/

/-- `ServerFlag` values (dns_service.h lines 61-76): `SERVER_DEFAULT = 0`,
`SERVER_SYNC_OK = 1`.  An `options` argument is a bitwise OR of flags,
modelled as a natural number. -/
def SERVER_SYNC_OK : Nat := 1

/-- `DNSService::SERVER_DEFINED_FLAGS` (dns_service.h line 127): the bitwise
OR of all defined `ServerFlag` values, used for the compatibility check. -/
def SERVER_DEFINED_FLAGS : Nat := 1

/-- `AF_INET`, the IPv4 address family constant of the target platform. -/
def AF_INET : Nat := 2

/-- `AF_INET6`, the IPv6 address family constant of the target platform. -/
def AF_INET6 : Nat := 10

/-- A registered listener of the service: the adopted file descriptor, its
address family, its transport, and (for UDP) its options. -/
structure Listener where
  fd : Int
  af : Nat
  udp : Bool
  options : Nat
deriving DecidableEq, Repr

/-- The `DNSService` state the claims observe: the list of registered
listeners, in registration order. -/
structure DNSService where
  listeners : List Listener
deriving DecidableEq, Repr

/-- Modelled from the spec: the body of `DNSService::addServerUDPFromFD`
(`dns_service.cc`) is not among the source files; only its declaration
(dns_service.h lines 184-185) and contract are.  Per the contract, the call
throws `isc::InvalidParameter` if `options` contains any bit outside
`SERVER_DEFINED_FLAGS` or if `af` is neither `AF_INET` nor `AF_INET6`, and
only otherwise registers a new UDP listener.  On an error nothing is
registered. -/
def addServerUDPFromFD (s : DNSService) (fd : Int) (af : Nat) (options : Nat) :
    Except CcError DNSService :=
  if options &&& SERVER_DEFINED_FLAGS ≠ options then
    .error (.invalidParameter "unknown server flag")
  else if af ≠ AF_INET ∧ af ≠ AF_INET6 then
    .error (.invalidParameter "Unknown address family")
  else
    .ok ⟨s.listeners ++ [⟨fd, af, true, options⟩]⟩

/-!
Helper lemmas.
-/

/-- Every dispatched indexed `set` leaves the element's type tag unchanged. -/
theorem getType_eSetIdx : ∀ (e : Element) (i : Nat) (x : Element),
    (e.eSetIdx i x).2.getType = e.getType
  | .list l, i, x => by
    simp only [Element.eSetIdx]
    cases listSet l i x <;> rfl
  | .int _, _, _ => rfl
  | .dbl _, _, _ => rfl
  | .bool _, _, _ => rfl
  | .str _, _, _ => rfl
  | .map _, _, _ => rfl

/-- Every dispatched indexed `remove` leaves the element's type tag
unchanged. -/
theorem getType_eRemoveIdx : ∀ (e : Element) (i : Int),
    (e.eRemoveIdx i).2.getType = e.getType
  | .list l, i => by
    simp only [Element.eRemoveIdx]
    cases listRemove l i <;> rfl
  | .int _, _ => rfl
  | .dbl _, _ => rfl
  | .bool _, _ => rfl
  | .str _, _ => rfl
  | .map _, _ => rfl

/-- Every dispatched keyed `get` (with its insert-on-miss side effect)
leaves the element's type tag unchanged. -/
theorem getType_eGetKey : ∀ (e : Element) (k : String),
    (e.eGetKey k).2.getType = e.getType
  | .map m, k => by
    simp only [Element.eGetKey]
    rfl
  | .int _, _ => rfl
  | .dbl _, _ => rfl
  | .bool _, _ => rfl
  | .str _, _ => rfl
  | .list _, _ => rfl

/-- `decInt` inverts `encInt`. -/
theorem decInt_encInt : ∀ i : Int, decInt (encInt i) = i
  | .ofNat n => by simp [encInt, decInt, Nat.mul_mod_right]
  | .negSucc n => by simp [encInt, decInt]; omega

/-!
Claim theorems.
-/

/-- C1: for every Element, the type tag returned by `getType()` is fixed at
construction and never changes — every mutating operation of the interface
preserves it — and exactly one of the six type-specific accessors succeeds,
namely the one matching the tag, while each of the other five throws a
`TypeError`. -/
theorem c1_getType_fixed_accessors_exclusive (e : Element) :
    ([isOkB e.intValue, isOkB e.doubleValue, isOkB e.boolValue,
      isOkB e.stringValue, isOkB e.listValue, isOkB e.mapValue].count true = 1)
    ∧ (isOkB e.intValue = true ↔ e.getType = EType.integer)
    ∧ (isOkB e.doubleValue = true ↔ e.getType = EType.real)
    ∧ (isOkB e.boolValue = true ↔ e.getType = EType.boolean)
    ∧ (isOkB e.stringValue = true ↔ e.getType = EType.string)
    ∧ (isOkB e.listValue = true ↔ e.getType = EType.list)
    ∧ (isOkB e.mapValue = true ↔ e.getType = EType.map)
    ∧ ((isOkB e.intValue || isTypeErrB e.intValue) = true)
    ∧ ((isOkB e.doubleValue || isTypeErrB e.doubleValue) = true)
    ∧ ((isOkB e.boolValue || isTypeErrB e.boolValue) = true)
    ∧ ((isOkB e.stringValue || isTypeErrB e.stringValue) = true)
    ∧ ((isOkB e.listValue || isTypeErrB e.listValue) = true)
    ∧ ((isOkB e.mapValue || isTypeErrB e.mapValue) = true)
    ∧ (∀ v, (e.setValueInt v).2.getType = e.getType)
    ∧ (∀ v, (e.setValueDouble v).2.getType = e.getType)
    ∧ (∀ v, (e.setValueBool v).2.getType = e.getType)
    ∧ (∀ v, (e.setValueString v).2.getType = e.getType)
    ∧ (∀ v, (e.setValueList v).2.getType = e.getType)
    ∧ (∀ v, (e.setValueMapDispatch v).2.getType = e.getType)
    ∧ (∀ i x, (e.eSetIdx i x).2.getType = e.getType)
    ∧ (∀ x, (e.eAdd x).2.getType = e.getType)
    ∧ (∀ i, (e.eRemoveIdx i).2.getType = e.getType)
    ∧ (∀ k p, (e.eSetKey k p).2.getType = e.getType)
    ∧ (∀ k, (e.eRemoveKey k).2.getType = e.getType)
    ∧ (∀ k, (e.eGetKey k).2.getType = e.getType) := by
  refine ⟨?_, ?_, ?_, ?_, ?_, ?_, ?_, ?_, ?_, ?_, ?_, ?_, ?_, ?_, ?_, ?_, ?_, ?_, ?_,
    fun i x => getType_eSetIdx e i x, ?_, fun i => getType_eRemoveIdx e i, ?_, ?_,
    fun k => getType_eGetKey e k⟩ <;>
  cases e <;>
    simp [isOkB, isTypeErrB, Element.intValue, Element.doubleValue,
      Element.boolValue, Element.stringValue, Element.listValue,
      Element.mapValue, Element.getType,
      Element.setValueInt, Element.setValueDouble, Element.setValueBool,
      Element.setValueString, Element.setValueList, Element.setValueMapDispatch,
      Element.eAdd, Element.eSetKey, Element.eRemoveKey]

/-- C2: for every supported scalar value (integer, real, boolean, string),
decoding the wire encoding of the element created from it —
`fromWire(toWire(create(v)))` — yields an Element with the same type tag and
the same payload value (indeed, the same Element). -/
theorem c2_wire_roundtrip_scalars (i : Int) (d : ℚ) (b : Bool) (s : String) :
    fromWire (toWire (Element.createInt i)) = .ok (Element.createInt i)
    ∧ fromWire (toWire (Element.createDouble d)) = .ok (Element.createDouble d)
    ∧ fromWire (toWire (Element.createBool b)) = .ok (Element.createBool b)
    ∧ fromWire (toWire (Element.createString s)) = .ok (Element.createString s) := by
  refine ⟨?_, ?_, ?_, ?_⟩
  · simp [toWire, fromWire, Element.createInt, decInt_encInt]
  · simp [toWire, fromWire, Element.createDouble, decInt_encInt, Rat.den_nz,
      Rat.num_div_den]
  · cases b <;> simp [toWire, fromWire, Element.createBool]
  · cases s with
    | mk data =>
      simp [toWire, fromWire, Element.createString, List.map_map,
        Function.comp_def, Char.ofNat_toNat]

/-- C3: evaluation at the failing input of the claim "for every getValue /
setValue overload, the overload whose argument type matches the element's
variant returns true and setValue replaces the payload".  For the map
overload of `setValue`, invoked as the header prescribes through an
`ElementPtr`, the claim is false even on a map element: `MapElement`'s
`setValue` takes a non-const reference (data.h line 393) and so does not
override the const-reference virtual (data.h line 173); the base body runs,
returns `false`, and changes nothing — contradicting the documented contract
(data.h lines 161-165). -/
theorem c3_setValue_map_dispatch_fails :
    Element.setValueMapDispatch (Element.map [("k", some (Element.int 1))])
        [("a", some (Element.int 2))]
      = (false, Element.map [("k", some (Element.int 1))]) := rfl

/-- C4: evaluation at the failing input of the claim "for every list of
length n and every index i ≥ n, `set(i, e)` fails with a range error and
leaves the list unchanged".  `ListElement::set` guards with `i <= l.size()`
(data.h line 378), so at `i = n` — here a list of length 1 with `i = 1` —
it does not throw at all: it performs an unchecked `operator[]` write one
past the end, undefined behavior, contradicting its own documentation
(data.h lines 189-190).  For `i > n` the range error is thrown. -/
theorem c4_listSet_off_by_one :
    listSet [Element.int 0] 1 (Element.int 7)
        = .error (.undefinedBehavior "unchecked vector write one past the end")
    ∧ listSet [Element.int 0] 2 (Element.int 7)
        = .error (.outOfRange "vector::_M_range_check") := ⟨rfl, rfl⟩

/-- C5: evaluation at the failing input of the claim "`remove(i)` at an
out-of-range index is a no-op".  `ListElement::remove` has no bounds check
(data.h line 380): it always calls `l.erase(l.begin() + i)`, which for an
out-of-range index — here a list of length 1 with `i = 5` — is undefined
behavior in C++, not a no-op, contradicting its own documentation (data.h
lines 197-198).  The claim's second half does hold: `get` at an out-of-range
index throws `std::out_of_range`. -/
theorem c5_listRemove_out_of_range_not_noop :
    listRemove [Element.int 0] 5
        = .error (.undefinedBehavior "vector::erase on an invalid iterator")
    ∧ listGet [Element.int 0] 5 = .error (.outOfRange "vector::_M_range_check")
    ∧ listGet [Element.int 0] (-1)
        = .error (.outOfRange "vector::_M_range_check") := ⟨rfl, by rfl, by rfl⟩

/-- C6: on a map element, `find` resolves a slash-separated identifier by
descending through nested maps segment by segment; if an intermediate
segment is absent, null, or names a non-map element the result is the
explicit not-found value (null handle, or `false` for the boolean overload,
which leaves its out-reference untouched) and nothing is thrown; if the full
path exists the handle at the leaf is returned (or `true`, with the handle
stored). -/
theorem c6_find_path_resolution (m m2 : MapPayload) (k id : String)
    (segs : List String) (t : Option Element) :
    (Element.eFind (Element.map m) id = .ok (findSegs m (splitSegs id)))
    ∧ (segs ≠ [] → mlookup k m = some (some (Element.map m2)) →
        findSegs m (k :: segs) = findSegs m2 segs)
    ∧ (segs ≠ [] → mlookup k m = none → findSegs m (k :: segs) = none)
    ∧ (segs ≠ [] → mlookup k m = some none → findSegs m (k :: segs) = none)
    ∧ (∀ e, segs ≠ [] → mlookup k m = some (some e) → e.getType ≠ EType.map →
        findSegs m (k :: segs) = none)
    ∧ (∀ v, mlookup k m = some v → findSegs m [k] = v)
    ∧ (∀ e, findSegs m (splitSegs id) = some e →
        Element.eFindTo (Element.map m) id t = (true, some e))
    ∧ (findSegs m (splitSegs id) = none →
        Element.eFindTo (Element.map m) id t = (false, t)) := by
  refine ⟨rfl, ?_, ?_, ?_, ?_, ?_, ?_, ?_⟩
  · intro hne hl
    cases segs with
    | nil => exact absurd rfl hne
    | cons s rest => simp [findSegs, hl]
  · intro hne hl
    cases segs with
    | nil => exact absurd rfl hne
    | cons s rest => simp [findSegs, hl]
  · intro hne hl
    cases segs with
    | nil => exact absurd rfl hne
    | cons s rest => simp [findSegs, hl]
  · intro e hne hl hty
    cases segs with
    | nil => exact absurd rfl hne
    | cons s rest =>
      cases e <;> simp [Element.getType] at hty <;> simp [findSegs, hl]
  · intro v hl
    simp [findSegs, hl]
  · intro e hf
    simp [Element.eFindTo, hf]
  · intro hf
    simp [Element.eFindTo, hf]

/-- Witness for C6: a concrete three-level map resolves `a/b/c` to the leaf,
and with a string at the intermediate key the boolean overload reports
not-found and leaves its out-reference untouched. -/
theorem c6_find_path_resolution_witness :
    findSegs [("a", some (Element.map
        [("b", some (Element.map [("c", some (Element.int 42))]))]))]
      ["a", "b", "c"] = some (Element.int 42)
    ∧ Element.eFindTo (Element.map [("a", some (Element.str "s"))]) "a/b" none
      = (false, none) := by
  constructor
  · exact ((c6_find_path_resolution
      [("a", some (Element.map
        [("b", some (Element.map [("c", some (Element.int 42))]))]))]
      [("b", some (Element.map [("c", some (Element.int 42))]))]
      "a" "" ["b", "c"] none).2.1 (by simp) rfl).trans rfl
  · have h := c6_find_path_resolution [("a", some (Element.str "s"))] []
      "a" "a/b" ["b"] none
    have hsplit : splitSegs "a/b" = ["a", "b"] := rfl
    exact h.2.2.2.2.2.2.2 (hsplit ▸
      h.2.2.2.2.1 (Element.str "s") (by simp) rfl (by simp [Element.getType]))

/-- Looking a key up right after inserting it yields the inserted value. -/
theorem mlookup_minsert_self (k : String) (v : Option Element) :
    ∀ m : MapPayload, mlookup k (minsert k v m) = some v := by
  intro m
  induction m with
  | nil => simp [minsert, mlookup]
  | cons p rest ih =>
    obtain ⟨k2, v2⟩ := p
    by_cases h1 : k < k2
    · simp [minsert, h1, mlookup]
    · by_cases h2 : k = k2
      · simp [minsert, h1, h2, mlookup]
      · simp [minsert, h1, h2, mlookup, ih]

/-- C7: on a map element, `get` at an absent key does not fail: it returns
the null handle and, as a side effect of `std::map::operator[]`, inserts
that null placeholder under the key, so the lookup is mutating and the key
is present afterwards. -/
theorem c7_mapGet_miss_inserts_placeholder (m : MapPayload) (k : String)
    (h : mapContains m k = false) :
    Element.eGetKey (Element.map m) k = (.ok none, Element.map (minsert k none m))
    ∧ (mapGet m k).1 = none
    ∧ mapContains (mapGet m k).2 k = true := by
  have hl : mlookup k m = none := by
    simpa [mapContains, Option.isSome_iff_exists] using h
  refine ⟨?_, ?_, ?_⟩
  · simp [Element.eGetKey, mapGet, hl]
  · simp [mapGet, hl]
  · simp [mapGet, hl, mapContains, mlookup_minsert_self]

/-- Witness for C7: getting the absent key `"b"` from a concrete one-entry
map returns the null handle and leaves the key present. -/
theorem c7_mapGet_miss_inserts_placeholder_witness :
    mapContains [("a", some (Element.int 1))] "b" = false
    ∧ ((mapGet [("a", some (Element.int 1))] "b").1 = none
        ∧ mapContains (mapGet [("a", some (Element.int 1))] "b").2 "b" = true) :=
  ⟨rfl, (c7_mapGet_miss_inserts_placeholder [("a", some (Element.int 1))] "b" rfl).2⟩

/-- A key of `minsert k v m` is `k` or a key of `m`. -/
theorem mem_keys_minsert (k : String) (v : Option Element) :
    ∀ (m : MapPayload) (x : String), x ∈ (minsert k v m).map Prod.fst →
      x = k ∨ x ∈ m.map Prod.fst := by
  intro m
  induction m with
  | nil => simp [minsert]
  | cons p rest ih =>
    obtain ⟨k2, v2⟩ := p
    intro x hx
    by_cases h1 : k < k2
    · simp [minsert, h1] at hx
      rcases hx with h | h | h
      · exact .inl h
      · exact .inr (by simp [h])
      · exact .inr (by simp [h])
    · by_cases h2 : k = k2
      · simp [minsert, h1, h2] at hx
        rcases hx with h | h
        · exact .inl (h.trans h2.symm)
        · exact .inr (by simp [h])
      · simp [minsert, h1, h2] at hx
        rcases hx with h | h
        · exact .inr (by simp [h])
        · rcases ih x (by simpa using h) with h3 | h3
          · exact .inl h3
          · exact .inr (by simp [h3])

/-- `minsert` keeps the key list strictly ascending — the `std::map`
invariant. -/
theorem sorted_keys_minsert (k : String) (v : Option Element) :
    ∀ m : MapPayload, (m.map Prod.fst).Pairwise (· < ·) →
      ((minsert k v m).map Prod.fst).Pairwise (· < ·) := by
  intro m
  induction m with
  | nil => simp [minsert]
  | cons p rest ih =>
    obtain ⟨k2, v2⟩ := p
    intro hs
    rw [List.map_cons, List.pairwise_cons] at hs
    by_cases h1 : k < k2
    · rw [minsert]
      simp only [if_pos h1, List.map_cons, List.pairwise_cons]
      refine ⟨?_, ?_⟩
      · intro a ha
        simp at ha
        rcases ha with h | h
        · exact h ▸ h1
        · exact h1.trans (hs.1 a (by simpa using h))
      · exact ⟨hs.1, hs.2⟩
    · by_cases h2 : k = k2
      · rw [minsert]
        simp only [if_neg h1, if_pos h2, List.map_cons, List.pairwise_cons]
        exact ⟨fun a ha => h2 ▸ hs.1 a ha, hs.2⟩
      · have hk2 : k2 < k := lt_of_le_of_ne (not_lt.mp h1) (Ne.symm h2)
        rw [minsert]
        simp only [if_neg h1, if_neg h2, List.map_cons, List.pairwise_cons]
        refine ⟨?_, ih hs.2⟩
        intro a ha
        rcases mem_keys_minsert k v rest a ha with h | h
        · exact h ▸ hk2
        · exact hs.1 a h

/-- Any map built up through the public `set` interface has its pairs stored
in strictly ascending key order. -/
theorem sorted_keys_mkMapPayload (kvs : List (String × Element)) :
    ((mkMapPayload kvs).map Prod.fst).Pairwise (· < ·) := by
  have main : ∀ (l : List (String × Element)) (m : MapPayload),
      (m.map Prod.fst).Pairwise (· < ·) →
      ((l.foldl (fun m kv => mapSet m kv.1 (some kv.2)) m).map Prod.fst).Pairwise
        (· < ·) := by
    intro l
    induction l with
    | nil => intro m h; exact h
    | cons kv rest ih =>
      intro m h
      exact ih _ (sorted_keys_minsert kv.1 (some kv.2) m h)
  exact main kvs [] (by simp)

/-- Counterexample to C8 as stated: a map element cannot render its pairs in
insertion order, because insertion order is not part of its state.  Building
a map by inserting `"b"` then `"a"` and building one by inserting `"a"` then
`"b"` produce the very same payload (the `std::map` stores pairs in key
order), so `str()` produces the same text for both — the key-ordered
rendering — while the claim demands the first render `"b"` first. -/
theorem c8_insertion_order_counterexample :
    mkMapPayload [("b", Element.int 1), ("a", Element.int 2)]
      = mkMapPayload [("a", Element.int 2), ("b", Element.int 1)]
    ∧ strOf (Element.map (mkMapPayload [("b", Element.int 1), ("a", Element.int 2)]))
      = "\x7b \"a\": 2, \"b\": 1 \x7d"
    ∧ ("\x7b \"a\": 2, \"b\": 1 \x7d" : String) ≠ "\x7b \"b\": 1, \"a\": 2 \x7d" := by
  have hab : "a" < "b" := by rw [String.lt_iff_toList_lt]; decide
  have hba : ¬ ("b" < "a") := by rw [String.lt_iff_toList_lt]; decide
  refine ⟨?_, ?_, ?_⟩
  · simp [mkMapPayload, mapSet, minsert, hab, hba]
  · simp [mkMapPayload, mapSet, minsert, strOf, strM, strP]
    rfl
  · decide

/-- C8 (amended): `str()` renders a map element as `{ "key": value, ... }`
with the pairs in ascending key order — the `std::map` storage order, the
only order the element retains — lists as `[ value, ... ]`, scalars in
natural textual form and strings quoted. -/
theorem c8_str_renders_key_order (kvs : List (String × Element)) :
    ((mkMapPayload kvs).map Prod.fst).Pairwise (· < ·)
    ∧ strOf (Element.map (mkMapPayload [("b", Element.int 1), ("a", Element.int 2)]))
      = "\x7b \"a\": 2, \"b\": 1 \x7d"
    ∧ strOf (Element.list [Element.int 1, Element.str "s", Element.bool true])
      = "[ 1, \"s\", true ]"
    ∧ strOf (Element.str "s") = "\"s\""
    ∧ strOf (Element.int (-3)) = "-3" := by
  refine ⟨sorted_keys_mkMapPayload kvs, ?_, ?_, ?_, ?_⟩
  · simp [mkMapPayload, mapSet, minsert, strOf, strM, strP]
    rfl
  · simp [strOf, strL]
    rfl
  · simp [strOf]
  · simp [strOf]
    rfl

/-- C9: `addServerUDPFromFD` called with an `options` value containing any
bit outside the defined flag set (`SERVER_DEFINED_FLAGS`, i.e. any bit other
than `SERVER_SYNC_OK`) fails with the invalid-parameter condition; since the
call throws, no listener is registered (the service state is only replaced
on the `ok` outcome). -/
theorem c9_addServerUDPFromFD_rejects_undefined_flags (s : DNSService)
    (fd : Int) (af : Nat) (options : Nat)
    (h : options &&& SERVER_DEFINED_FLAGS ≠ options) :
    addServerUDPFromFD s fd af options
      = .error (.invalidParameter "unknown server flag")
    ∧ ∀ s2 : DNSService, addServerUDPFromFD s fd af options ≠ .ok s2 := by
  refine ⟨by simp [addServerUDPFromFD, h], ?_⟩
  intro s2
  simp [addServerUDPFromFD, h]

/-- Witness for C9: `options = 2` (an undefined bit) with a valid IPv4
family is rejected on an empty service. -/
theorem c9_addServerUDPFromFD_rejects_undefined_flags_witness :
    (2 &&& SERVER_DEFINED_FLAGS ≠ 2)
    ∧ addServerUDPFromFD ⟨[]⟩ 3 AF_INET 2
      = .error (.invalidParameter "unknown server flag") :=
  ⟨by decide,
    (c9_addServerUDPFromFD_rejects_undefined_flags ⟨[]⟩ 3 AF_INET 2 (by decide)).1⟩

/-- C10: on every non-map Element the two `find` overloads behave
asymmetrically: the handle-returning overload runs the base body and throws
`TypeError` (data.h line 237), while the boolean overload runs its base
body, which throws nothing, returns `false`, and leaves the out-reference
untouched (data.h line 242). -/
theorem c10_find_overloads_on_nonmap (e : Element) (id : String)
    (t : Option Element) (h : e.getType ≠ EType.map) :
    e.eFind id = .error (.typeError "find(string) called on a non-map Element")
    ∧ e.eFindTo id t = (false, t) := by
  cases e <;> simp [Element.getType] at h <;>
    simp [Element.eFind, Element.eFindTo]

/-- Witness for C10: a concrete integer element. -/
theorem c10_find_overloads_on_nonmap_witness :
    ((Element.int 5).getType ≠ EType.map)
    ∧ (Element.int 5).eFind "a"
      = .error (.typeError "find(string) called on a non-map Element")
    ∧ (Element.int 5).eFindTo "a" (some (Element.bool true))
      = (false, some (Element.bool true)) :=
  ⟨by decide,
    (c10_find_overloads_on_nonmap (Element.int 5) "a"
      (some (Element.bool true)) (by decide)).1,
    (c10_find_overloads_on_nonmap (Element.int 5) "a"
      (some (Element.bool true)) (by decide)).2⟩
